import Mathlib

/-!
# Talk-to-the-Chart: verification of the evidence retrieval pipeline

Shallow embedding of the core of the `talk-to-the-chart` repository:
the domain model (`src/talk_to_chart/domain/entities.py`), the extraction
protocol codec (`src/talk_to_chart/infrastructure/gemini_service.py`) and the
search orchestrator (`src/talk_to_chart/use_cases/interfaces.py`).

Python text is modelled as `List Char`; Python `float` scores (which are only
ever of the form `n / 10.0` or `0.5` and are used for comparisons) are
modelled as `ℚ`; the fallible external generation call is modelled as a
function into `Except`.  Python's `list.sort(key=..., reverse=True)` is a
stable sort by descending key; it is modelled with `List.insertionSort`
against the "greater or equal score" relation, which is stable in the same
sense (ties keep their original order).
-/

set_option maxRecDepth 40000

namespace TalkToChart

/-! ## Basic character/text helpers (Python primitives) -/

/-- Python `\s` whitespace class (ASCII part). -/
def isPySpace (c : Char) : Bool :=
  c = ' ' || c = '\t' || c = '\n' || c = '\r' || c = '\x0b' || c = '\x0c'

/-- Python `int(s)` on a nonempty string of decimal digits. -/
def digitsToNat (ds : List Char) : Nat :=
  ds.foldl (fun a c => a * 10 + (c.toNat - 48)) 0

/-- Python `str(n)` for a natural number (used by f-string interpolation). -/
def natToChars (n : Nat) : List Char :=
  Nat.toDigits 10 n

/-- Python `s.lower()` restricted to ASCII case mapping. -/
def lowerStr (s : List Char) : List Char :=
  s.map Char.toLower

/-- Python substring test `needle in haystack`. -/
def containsSub (needle : List Char) : List Char → Bool
  | [] => needle.isEmpty
  | c :: rest => needle.isPrefixOf (c :: rest) || containsSub needle rest

/-- Python `text.split(tok)` for a nonempty separator `tok`: accumulator
    version scanning left to right, splitting at each occurrence.  The
    `fuel` argument makes the recursion structural (every step consumes at
    least one character, so `fuel = text.length` never runs out). -/
def splitTokAux (tok : List Char) : Nat → List Char → List Char → List (List Char)
  | _, [], acc => [acc.reverse]
  | 0, _ :: _, acc => [acc.reverse]
  | fuel + 1, c :: rest, acc =>
    if tok.isPrefixOf (c :: rest) && !tok.isEmpty then
      acc.reverse :: splitTokAux tok fuel (rest.drop (tok.length - 1)) []
    else
      splitTokAux tok fuel rest (c :: acc)

/-- Python `text.split(tok)`. -/
def pySplit (tok text : List Char) : List (List Char) :=
  splitTokAux tok text.length text []

/-! ## Domain model (`domain/entities.py`) -/

/-- Types of clinical notes. -/
inductive NoteType where
  | NURSING
  | THERAPY
  | CNA
  | SOCIAL_WORK
  | PHYSICIAN
deriving DecidableEq, Repr

/-- The `.value` of the Python `NoteType` enum member. -/
def NoteType.value : NoteType → List Char
  | .NURSING => "Nursing".toList
  | .THERAPY => "Therapy".toList
  | .CNA => "CNA".toList
  | .SOCIAL_WORK => "Social Work".toList
  | .PHYSICIAN => "Physician".toList

/-- Value object representing a clinical note author. -/
structure Author where
  name : List Char
  title : List Char
deriving DecidableEq, Repr

/-- `Author.__str__`: `f"{self.name}, {self.title}"`. -/
def Author.str (a : Author) : List Char :=
  a.name ++ ", ".toList ++ a.title

/-- Timestamp model carrying the fields used by `strftime`. -/
structure DateTime where
  year : Nat
  month : Nat
  day : Nat
  hour : Nat
  minute : Nat
deriving DecidableEq, Repr

/-- Zero-pad a decimal rendering to width `w` (strftime padding). -/
def padNum (w n : Nat) : List Char :=
  let ds := natToChars n
  List.replicate (w - ds.length) '0' ++ ds

/-- `dt.strftime('%m/%d/%Y %H:%M')`. -/
def DateTime.fmtDateTime (dt : DateTime) : List Char :=
  padNum 2 dt.month ++ "/".toList ++ padNum 2 dt.day ++ "/".toList ++
    padNum 4 dt.year ++ " ".toList ++ padNum 2 dt.hour ++ ":".toList ++
    padNum 2 dt.minute

/-- Entity representing a clinical note in the patient chart. -/
structure ClinicalNote where
  id : List Char
  resident_id : List Char
  content : List Char
  note_type : NoteType
  author : Author
  created_at : DateTime
deriving DecidableEq, Repr

/-- Entity representing a nursing home resident. -/
structure Resident where
  id : List Char
  name : List Char
  room_number : List Char
  admission_date : DateTime
deriving DecidableEq, Repr

/-- Value object representing a search result snippet. -/
structure QueryResult where
  snippet : List Char
  source_note : ClinicalNote
  relevance_score : ℚ
deriving DecidableEq, Repr

/-- Aggregate representing the complete search results. -/
structure SearchResults where
  query : List Char
  resident : Option Resident
  results : List QueryResult
  summary : List Char
deriving DecidableEq, Repr

/-- `SearchResults.count` property: number of results found. -/
def SearchResults.count (s : SearchResults) : Nat :=
  s.results.length

/-- `SearchResults.filter_by_note_type`: keep only results whose source note
    has the given type, with a replacement summary. -/
def SearchResults.filter_by_note_type (s : SearchResults) (note_type : NoteType) :
    SearchResults :=
  let filtered_results :=
    s.results.filter (fun result => result.source_note.note_type == note_type)
  ⟨s.query, s.resident, filtered_results,
    "Filtered results for ".toList ++ note_type.value ++ ": ".toList ++
      natToChars filtered_results.length ++ " notes found".toList⟩

/-! ## Extraction protocol codec (`infrastructure/gemini_service.py`) -/

/-- Python `re.search(r'"([^"]+)"', s)`, group 1: first double-quoted
    substring with a nonempty body.  Leftmost-match semantics: at a quote
    whose following run of non-quote characters is empty or unterminated,
    the scan resumes one character later. -/
def findQuoted : List Char → Option (List Char)
  | [] => none
  | c :: rest =>
    if c = '"' then
      let body := rest.takeWhile (fun d => d ≠ '"')
      let rest2 := rest.dropWhile (fun d => d ≠ '"')
      if rest2.isEmpty then findQuoted rest
      else if body.isEmpty then findQuoted rest
      else some body
    else
      findQuoted rest

/-- Try the pattern `tag ++ \s* ++ mid ++ (\d+)` at the head of `s`,
    returning the integer value of the digit group. -/
def tryTagAt (tag mid s : List Char) : Option Nat :=
  if tag.isPrefixOf s then
    let s1 := (s.drop tag.length).dropWhile isPySpace
    if mid.isPrefixOf s1 then
      let ds := (s1.drop mid.length).takeWhile Char.isDigit
      if ds.isEmpty then none else some (digitsToNat ds)
    else none
  else none

/-- Python `re.search(tag + r'\s*' + mid + r'(\d+)', s)`, group 1 as `int`:
    first occurrence of the literal `tag`, optional whitespace, the literal
    `mid`, then one or more digits.  (Greedy `\s*`/`\d+` need no
    backtracking here because the characters after them are not whitespace
    resp. not digits.)  Models `NOTE_ID:\s*NOTE_(\d+)` and
    `RELEVANCE:\s*(\d+)`. -/
def findTagNum (tag mid : List Char) : List Char → Option Nat
  | [] => none
  | c :: rest =>
    match tryTagAt tag mid (c :: rest) with
    | some n => some n
    | none => findTagNum tag mid rest

/-- One iteration of the fragment loop of
    `GeminiQueryProcessor._parse_search_response`: parse one `SNIPPET:`
    section into a `QueryResult`, or discard it (`continue`). -/
def parse_section (clinical_notes : List ClinicalNote) (sec : List Char) :
    Option QueryResult :=
  match findQuoted sec with
  | none => none
  | some snippet =>
    match findTagNum "NOTE_ID:".toList "NOTE_".toList sec with
    | none => none
    | some note_index =>
      let relevance_score : ℚ :=
        match findTagNum "RELEVANCE:".toList [] sec with
        | some n => (n : ℚ) / 10
        | none => 1 / 2
      match clinical_notes[note_index]? with
      | none => none
      | some note => some ⟨snippet, note, relevance_score⟩

/-- The result list of `_parse_search_response` before the final sort:
    sections after the first `SNIPPET:` token, each parsed or discarded,
    in reply order. -/
def extract_results (response_text : List Char) (clinical_notes : List ClinicalNote) :
    List QueryResult :=
  ((pySplit "SNIPPET:".toList response_text).drop 1).filterMap
    (parse_section clinical_notes)

/-- Sort key relation for `results.sort(key=lambda x: x.relevance_score,
    reverse=True)`: `a` may precede `b` when `a`'s score is at least `b`'s. -/
def relGE (a b : QueryResult) : Prop :=
  b.relevance_score ≤ a.relevance_score

instance : DecidableRel relGE := fun a b =>
  inferInstanceAs (Decidable (b.relevance_score ≤ a.relevance_score))

instance : IsTotal QueryResult relGE :=
  ⟨fun a b => (le_total b.relevance_score a.relevance_score).imp id id⟩

instance : IsTrans QueryResult relGE :=
  ⟨fun _ _ _ h1 h2 => le_trans h2 h1⟩

/-- `GeminiQueryProcessor._parse_search_response`: split the reply at
    `SNIPPET:` tokens, parse each fragment, then stably sort by relevance
    score, highest first (Python `list.sort` is stable; `insertionSort`
    against `relGE` has the same sorted-descending-and-stable behaviour). -/
def parse_search_response (response_text : List Char)
    (clinical_notes : List ClinicalNote) : List QueryResult :=
  (extract_results response_text clinical_notes).insertionSort relGE

/-- `GeminiQueryProcessor._prepare_context`: render the notes as
    `NOTE_<i>` blocks joined by newlines. -/
def prepare_context (clinical_notes : List ClinicalNote) : List Char :=
  let context_parts := clinical_notes.enum.map (fun p =>
    "NOTE_".toList ++ natToChars p.1 ++ ":\nType: ".toList ++
      p.2.note_type.value ++ "\nAuthor: ".toList ++ p.2.author.str ++
      "\nDate: ".toList ++ p.2.created_at.fmtDateTime ++
      "\nContent: ".toList ++ p.2.content ++ "\n---".toList)
  List.intercalate "\n".toList context_parts

/-- `GeminiQueryProcessor._create_search_prompt`: the instruction template
    with the query and the rendered context substituted in. -/
def create_search_prompt (query context : List Char) : List Char :=
  "\nYou are an expert MDS coordinator assistant. Your task is to find relevant clinical evidence from nursing home documentation.\n\nQUERY: ".toList
    ++ query
    ++ "\n\nCLINICAL NOTES:\n".toList
    ++ context
    ++ "\n\nInstructions:\n1. Find direct quotes from the clinical notes that are relevant to the query\n2. Return ONLY the most relevant sentences or phrases (not entire paragraphs)\n3. Include the NOTE_X identifier for each relevant snippet\n4. Format your response as:\n   SNIPPET: \"exact quote from note\"\n   NOTE_ID: NOTE_X\n   RELEVANCE: score from 1-10\n   \n5. Return up to 5 most relevant snippets\n6. Only include snippets that directly answer or relate to the query\n\nResponse format:\nSNIPPET: \"quote here\"\nNOTE_ID: NOTE_0\nRELEVANCE: 8\n\nSNIPPET: \"another quote\"\nNOTE_ID: NOTE_2  \nRELEVANCE: 7\n".toList

/-- `GeminiQueryProcessor.process_query`: build the prompt, call the
    external generation service (modelled as a function into `Except`,
    raising = `Except.error`), parse the reply; any failure of the call is
    caught and turned into the empty list (the Python code also logs it). -/
def process_query (gen : List Char → Except (List Char) (List Char))
    (query : List Char) (clinical_notes : List ClinicalNote) :
    List QueryResult :=
  let context := prepare_context clinical_notes
  let prompt := create_search_prompt query context
  match gen prompt with
  | Except.ok text => parse_search_response text clinical_notes
  | Except.error _ => []

/-! ## Summary heuristic (`gemini_service.py`) -/

/-- The fixed keyword-to-phrase table of
    `GeminiQueryProcessor._extract_evidence_type`, in Python dict insertion
    order. -/
def evidence_mapping : List (List Char × List Char) :=
  [("depression".toList, "symptoms of depression".toList),
   ("mood".toList, "mood-related symptoms".toList),
   ("fall".toList, "fall risk or incidents".toList),
   ("assist".toList, "assistance requirements".toList),
   ("transfer".toList, "transfer assistance needs".toList),
   ("cognitive".toList, "cognitive impairment".toList),
   ("behavior".toList, "behavioral symptoms".toList),
   ("pain".toList, "pain indicators".toList),
   ("medication".toList, "medication-related issues".toList)]

/-- `GeminiQueryProcessor._extract_evidence_type`: first table entry (in
    table order) whose keyword occurs in the lowercased query. -/
def extract_evidence_type (query : List Char) : Option (List Char) :=
  let query_lower := lowerStr query
  (evidence_mapping.find? (fun kv => containsSub kv.1 query_lower)).map
    (fun kv => kv.2)

/-- `GeminiQueryProcessor.generate_summary`. -/
def generate_summary (query : List Char) (results : List QueryResult) :
    List Char :=
  if results.isEmpty then
    "No relevant clinical evidence found for your query.".toList
  else
    let count := results.length
    match extract_evidence_type query with
    | some evidence_type =>
      "I found ".toList ++ natToChars count ++
        " notes that may indicate ".toList ++ evidence_type ++ ":".toList
    | none =>
      "I found ".toList ++ natToChars count ++
        " relevant notes for your query:".toList

/-! ## Search orchestrator (`use_cases/interfaces.py`) -/

/-- `SearchClinicalNotesUseCase.execute`.  Time is modelled as an integer
    day count: `since_date = now - lookback_days` stands for
    `datetime.now() - timedelta(days=self._lookback_days)`.  The note
    repository and the AI processor (its `process_query` and
    `generate_summary` capabilities) are explicit function arguments. -/
def execute
    (note_repository : List Char → Int → List ClinicalNote)
    (ai_process_query : List Char → List ClinicalNote → List QueryResult)
    (ai_generate_summary : List Char → List QueryResult → List Char)
    (lookback_days : Int) (now : Int)
    (resident_id : List Char) (query : List Char) : SearchResults :=
  let since_date := now - lookback_days
  let notes := note_repository resident_id since_date
  if notes.isEmpty then
    ⟨query, none, [],
      "No clinical notes found for the specified time period.".toList⟩
  else
    let results := ai_process_query query notes
    let summary := ai_generate_summary query results
    ⟨query, none, results, summary⟩

/-! ## Concrete fixtures used by witnesses and counterexamples -/

/-- A nursing note whose content mentions falling. -/
def exNote0 : ClinicalNote :=
  ⟨"note-1".toList, "RES001".toList, "resident fell twice today".toList,
    .NURSING, ⟨"Alice Smith".toList, "RN".toList⟩, ⟨2024, 1, 2, 9, 30⟩⟩

/-- A therapy note mentioning pain. -/
def exNote1 : ClinicalNote :=
  ⟨"note-2".toList, "RES001".toList, "pain reported during therapy".toList,
    .THERAPY, ⟨"Bob Jones".toList, "PT".toList⟩, ⟨2024, 1, 3, 14, 0⟩⟩

/-- A two-note chart. -/
def exNotes : List ClinicalNote := [exNote0, exNote1]

/-- A well-formed reply fragment (text following a `SNIPPET:` token). -/
def exSec : List Char :=
  " \"resident fell twice\" NOTE_ID: NOTE_0 RELEVANCE: 9\n".toList

/-- The result parsed from `exSec` against `exNotes`. -/
def exRes : QueryResult :=
  ⟨"resident fell twice".toList, exNote0, (9 : ℚ) / 10⟩

/-- A fragment with no double-quoted substring. -/
def exSecNoQuote : List Char :=
  " no quote here NOTE_ID: NOTE_0 RELEVANCE: 9\n".toList

/-- A well-formed fragment naming the second note. -/
def exSecPain : List Char :=
  " \"pain reported\" NOTE_ID: NOTE_1 RELEVANCE: 7\n".toList

/-- A reply whose single fragment reports `RELEVANCE: 15`, outside the
    conformant 1-10 range. -/
def exRespFifteen : List Char :=
  "SNIPPET: \"resident fell twice\" NOTE_ID: NOTE_0 RELEVANCE: 15".toList

/-- The (out-of-range) result parsed from `exRespFifteen`. -/
def exResFifteen : QueryResult :=
  ⟨"resident fell twice".toList, exNote0, (15 : ℚ) / 10⟩

/-- A conformant single-fragment reply. -/
def exRespOne : List Char :=
  "SNIPPET: \"resident fell twice\" NOTE_ID: NOTE_0 RELEVANCE: 9".toList

/-- A reply whose quoted snippet does not occur in any note's content. -/
def exRespFabricated : List Char :=
  "SNIPPET: \"xyz\" NOTE_ID: NOTE_0 RELEVANCE: 9".toList

/-- The result parsed from `exRespFabricated` against `exNotes`. -/
def exResFabricated : QueryResult :=
  ⟨"xyz".toList, exNote0, (9 : ℚ) / 10⟩

/-- A reply with six well-formed fragments (more than the prompt's
    "up to 5" instruction). -/
def exRespSix : List Char :=
  ("SNIPPET: \"resident\" NOTE_ID: NOTE_0 RELEVANCE: 9\n" ++
   "SNIPPET: \"fell\" NOTE_ID: NOTE_0 RELEVANCE: 8\n" ++
   "SNIPPET: \"twice\" NOTE_ID: NOTE_0 RELEVANCE: 7\n" ++
   "SNIPPET: \"today\" NOTE_ID: NOTE_0 RELEVANCE: 6\n" ++
   "SNIPPET: \"pain\" NOTE_ID: NOTE_1 RELEVANCE: 5\n" ++
   "SNIPPET: \"therapy\" NOTE_ID: NOTE_1 RELEVANCE: 4\n").toList

/-- A generation service stub that always fails. -/
def exGenFail : List Char → Except (List Char) (List Char) :=
  fun _ => Except.error "429 quota exceeded".toList

/-- A note repository stub that has no notes for anyone. -/
def exRepoEmpty : List Char → Int → List ClinicalNote :=
  fun _ _ => []

/-- An AI-processor stub (`process_query` capability). -/
def exProcNone : List Char → List ClinicalNote → List QueryResult :=
  fun _ _ => []

/-- An AI-processor stub (`generate_summary` capability). -/
def exSummEmpty : List Char → List QueryResult → List Char :=
  fun _ _ => []

/-! ## Helper lemmas -/

/-- `List.isPrefixOf` agrees with the existence of a completing suffix. -/
theorem isPrefixOf_iff_exists :
    ∀ l₁ l₂ : List Char, l₁.isPrefixOf l₂ = true ↔ ∃ t, l₂ = l₁ ++ t
  | [], l₂ => by simp [List.isPrefixOf]
  | a :: as, [] => by simp [List.isPrefixOf]
  | a :: as, b :: bs => by
    simp only [List.isPrefixOf, Bool.and_eq_true, beq_iff_eq,
      isPrefixOf_iff_exists as bs, List.cons_append]
    constructor
    · rintro ⟨rfl, t, rfl⟩
      exact ⟨t, rfl⟩
    · rintro ⟨t, h⟩
      obtain ⟨h1, h2⟩ := List.cons.inj h
      exact ⟨h1.symm, t, h2⟩

/-- `containsSub` is Python's substring test: it decides whether the
    haystack splits as `pre ++ needle ++ post`. -/
theorem containsSub_iff (needle : List Char) :
    ∀ haystack : List Char,
      containsSub needle haystack = true ↔
        ∃ pre post, haystack = pre ++ needle ++ post
  | [] => by
    constructor
    · intro h
      have hn : needle = [] := by
        simpa [containsSub, List.isEmpty_iff] using h
      exact ⟨[], [], by simp [hn]⟩
    · rintro ⟨pre, post, h⟩
      rcases List.append_eq_nil.mp h.symm with ⟨h1, hpost⟩
      rcases List.append_eq_nil.mp h1 with ⟨hpre, hn⟩
      simp [containsSub, hn]
  | c :: rest => by
    simp only [containsSub, Bool.or_eq_true, isPrefixOf_iff_exists,
      containsSub_iff needle rest]
    constructor
    · rintro (⟨t, ht⟩ | ⟨pre, post, hp⟩)
      · exact ⟨[], t, by simpa using ht⟩
      · exact ⟨c :: pre, post, by simp [hp]⟩
    · rintro ⟨pre, post, hp⟩
      cases pre with
      | nil =>
        exact Or.inl ⟨post, by simpa using hp⟩
      | cons p ps =>
        obtain ⟨h1, h2⟩ := List.cons.inj hp
        exact Or.inr ⟨ps, post, h2⟩

/-- Stability of one insertion step: filtering for one score value commutes
    with `orderedInsert` against `relGE` (the inserted element lands in
    front of the kept elements of equal score, behind strictly greater
    ones). -/
theorem filter_orderedInsert_score (x : QueryResult) (s : ℚ) :
    ∀ l : List QueryResult,
      (l.orderedInsert relGE x).filter (fun r => decide (r.relevance_score = s)) =
        if x.relevance_score = s then
          x :: l.filter (fun r => decide (r.relevance_score = s))
        else
          l.filter (fun r => decide (r.relevance_score = s))
  | [] => by
    by_cases hx : x.relevance_score = s <;>
      simp [List.orderedInsert, hx]
  | b :: t => by
    by_cases hr : relGE x b
    · by_cases hx : x.relevance_score = s <;>
        by_cases hb : b.relevance_score = s <;>
          simp [List.orderedInsert, hr, hx, hb, List.filter_cons]
    · have hlt : x.relevance_score < b.relevance_score := by
        simpa [relGE, not_le] using hr
      by_cases hx : x.relevance_score = s
      · have hb : ¬ b.relevance_score = s := by
          rw [← hx]; exact (ne_of_gt hlt)
        simp [List.orderedInsert, hr, hx, hb, List.filter_cons,
          filter_orderedInsert_score x s t]
      · by_cases hb : b.relevance_score = s <;>
          simp [List.orderedInsert, hr, hx, hb, List.filter_cons,
            filter_orderedInsert_score x s t]

/-- Stability of the whole sort: the sequence of results carrying any given
    score is untouched by `insertionSort` against `relGE`. -/
theorem filter_insertionSort_score (s : ℚ) :
    ∀ l : List QueryResult,
      (l.insertionSort relGE).filter (fun r => decide (r.relevance_score = s)) =
        l.filter (fun r => decide (r.relevance_score = s))
  | [] => rfl
  | x :: t => by
    simp only [List.insertionSort]
    rw [filter_orderedInsert_score]
    by_cases hx : x.relevance_score = s <;>
      simp [hx, List.filter_cons, filter_insertionSort_score s t]

/-- A fragment that is missing its quoted snippet or its note id, or that
    names an out-of-range note index, is discarded by the fragment parser. -/
theorem parse_section_eq_none (clinical_notes : List ClinicalNote)
    (sec : List Char)
    (h : findQuoted sec = none ∨
      findTagNum "NOTE_ID:".toList "NOTE_".toList sec = none ∨
      ∃ idx, findTagNum "NOTE_ID:".toList "NOTE_".toList sec = some idx ∧
        clinical_notes.length ≤ idx) :
    parse_section clinical_notes sec = none := by
  rcases h with h | h | ⟨idx, hidx, hlen⟩
  · simp [parse_section, h]
  · cases hq : findQuoted sec <;> simp only [parse_section, hq, h]
  · have hnone : clinical_notes[idx]? = none := List.getElem?_eq_none hlen
    cases hq : findQuoted sec <;>
      simp only [parse_section, hq, hidx, hnone]

/-- The relevance score of any parsed fragment: the first
    `RELEVANCE: <digits>` value divided by ten, or one half when the tag
    is absent. -/
theorem parse_section_relevance (clinical_notes : List ClinicalNote)
    (sec : List Char) (r : QueryResult)
    (h : parse_section clinical_notes sec = some r) :
    r.relevance_score =
      match findTagNum "RELEVANCE:".toList [] sec with
      | some n => (n : ℚ) / 10
      | none => 1 / 2 := by
  unfold parse_section at h
  rcases hq : findQuoted sec with _ | sn <;> rw [hq] at h
  · exact absurd h (by simp)
  rcases hid : findTagNum "NOTE_ID:".toList "NOTE_".toList sec with _ | idx <;>
    rw [hid] at h
  · exact absurd h (by simp)
  rcases hn : clinical_notes[idx]? with _ | note <;> simp only [hn] at h
  · exact absurd h (by simp)
  · obtain rfl := Option.some.inj h
    rfl

/-- The snippet of any parsed fragment is the (nonempty) body of the first
    double-quoted substring of the fragment. -/
theorem parse_section_snippet (clinical_notes : List ClinicalNote)
    (sec : List Char) (r : QueryResult)
    (h : parse_section clinical_notes sec = some r) :
    findQuoted sec = some r.snippet := by
  unfold parse_section at h
  rcases hq : findQuoted sec with _ | sn <;> rw [hq] at h
  · exact absurd h (by simp)
  rcases hid : findTagNum "NOTE_ID:".toList "NOTE_".toList sec with _ | idx <;>
    rw [hid] at h
  · exact absurd h (by simp)
  rcases hn : clinical_notes[idx]? with _ | note <;> simp only [hn] at h
  · exact absurd h (by simp)
  · obtain rfl := Option.some.inj h
    rfl

/-- `findQuoted` never returns an empty body (the regex body is `[^"]+`). -/
theorem findQuoted_ne_nil :
    ∀ s b, findQuoted s = some b → b ≠ []
  | [], b => by simp [findQuoted]
  | c :: rest, b => by
    intro h
    by_cases hc : c = '"'
    · rw [findQuoted, if_pos hc] at h
      by_cases h2 : (rest.dropWhile (fun d => d ≠ '"')).isEmpty
      · rw [if_pos h2] at h
        exact findQuoted_ne_nil rest b h
      · rw [if_neg h2] at h
        by_cases h3 : (rest.takeWhile (fun d => d ≠ '"')).isEmpty
        · rw [if_pos h3] at h
          exact findQuoted_ne_nil rest b h
        · rw [if_neg h3] at h
          obtain rfl := Option.some.inj h
          simpa [List.isEmpty_iff] using h3
    · rw [findQuoted, if_neg hc] at h
      exact findQuoted_ne_nil rest b h

/-! ## Claim theorems -/

/-- C1: `process_query` is a total function (it never raises), and whenever
    the call to the underlying generation service fails — i.e. `gen` returns
    `Except.error` on the constructed prompt — `process_query` returns the
    empty list rather than propagating the failure. -/
theorem process_query_fail_open
    (gen : List Char → Except (List Char) (List Char))
    (query : List Char) (clinical_notes : List ClinicalNote)
    (e : List Char)
    (h : gen (create_search_prompt query (prepare_context clinical_notes)) =
      Except.error e) :
    process_query gen query clinical_notes = [] := by
  simp only [process_query, h]

/-- C1 witness: a generation service that always fails (quota error) makes
    `process_query` return the empty list. -/
theorem process_query_fail_open_witness :
    exGenFail (create_search_prompt "find falls".toList (prepare_context exNotes)) =
      Except.error "429 quota exceeded".toList ∧
    process_query exGenFail "find falls".toList exNotes = [] :=
  ⟨rfl, process_query_fail_open exGenFail "find falls".toList exNotes
    "429 quota exceeded".toList rfl⟩

/-- C2: a reply fragment that lacks a double-quoted substring, lacks a
    `NOTE_ID: NOTE_<digits>` occurrence, or names an out-of-range note
    index, contributes zero `QueryResult` entries (the fragment parser
    returns `none` instead of raising) and does not change the results
    produced from the surrounding fragments. -/
theorem malformed_fragment_contributes_nothing
    (clinical_notes : List ClinicalNote) (sec : List Char)
    (pre post : List (List Char))
    (h : findQuoted sec = none ∨
      findTagNum "NOTE_ID:".toList "NOTE_".toList sec = none ∨
      ∃ idx, findTagNum "NOTE_ID:".toList "NOTE_".toList sec = some idx ∧
        clinical_notes.length ≤ idx) :
    parse_section clinical_notes sec = none ∧
      (pre ++ sec :: post).filterMap (parse_section clinical_notes) =
        (pre ++ post).filterMap (parse_section clinical_notes) := by
  have h0 := parse_section_eq_none clinical_notes sec h
  refine ⟨h0, ?_⟩
  simp [List.filterMap_append, List.filterMap_cons, h0]

/-- C2 witness: a fragment with no double-quoted substring, placed between
    two well-formed fragments, is dropped and leaves them untouched. -/
theorem malformed_fragment_contributes_nothing_witness :
    findQuoted exSecNoQuote = none ∧
      (parse_section exNotes exSecNoQuote = none ∧
        ([exSec] ++ exSecNoQuote :: [exSecPain]).filterMap (parse_section exNotes) =
          ([exSec] ++ [exSecPain]).filterMap (parse_section exNotes)) :=
  ⟨rfl, malformed_fragment_contributes_nothing exNotes exSecNoQuote
    [exSec] [exSecPain] (Or.inl rfl)⟩

/-- C3: the parsed result list is sorted by `relevance_score` in descending
    order (every later element's score is at most every earlier one's), and
    for each fixed score value the subsequence of results carrying it is
    exactly the corresponding subsequence of the pre-sort extraction order:
    ties keep their original fragment order. -/
theorem parse_sorted_descending_stable (response_text : List Char)
    (clinical_notes : List ClinicalNote) :
    List.Pairwise
        (fun a b => b.relevance_score ≤ a.relevance_score)
        (parse_search_response response_text clinical_notes) ∧
      ∀ s : ℚ,
        (parse_search_response response_text clinical_notes).filter
            (fun r => decide (r.relevance_score = s)) =
          (extract_results response_text clinical_notes).filter
            (fun r => decide (r.relevance_score = s)) :=
  ⟨List.sorted_insertionSort relGE _,
    fun s => filter_insertionSort_score s _⟩

/-- C4: a fragment that yields a `QueryResult` gives it relevance score
    equal to the first `RELEVANCE: <digits>` value divided by ten, and
    exactly one half when no such occurrence is present. -/
theorem fragment_relevance_normalization
    (clinical_notes : List ClinicalNote) (sec : List Char) (r : QueryResult)
    (h : parse_section clinical_notes sec = some r) :
    r.relevance_score =
      match findTagNum "RELEVANCE:".toList [] sec with
      | some n => (n : ℚ) / 10
      | none => 1 / 2 :=
  parse_section_relevance clinical_notes sec r h

/-- C4 witness: the fragment `"resident fell twice" NOTE_ID: NOTE_0
    RELEVANCE: 9` parses to a result scored 9/10. -/
theorem fragment_relevance_normalization_witness :
    parse_section exNotes exSec = some exRes ∧
      exRes.relevance_score =
        match findTagNum "RELEVANCE:".toList [] exSec with
        | some n => (n : ℚ) / 10
        | none => 1 / 2 :=
  ⟨rfl, fragment_relevance_normalization exNotes exSec exRes rfl⟩

/-- C5 counterexample: the claim "every parsed result has relevance score
    in [0,1]" is false at a concrete input — a reply reporting
    `RELEVANCE: 15` parses to a result whose score is 15/10 > 1 (the code
    does not clamp the self-reported rating). -/
theorem relevance_not_always_in_unit_interval :
    ¬ ∀ r ∈ parse_search_response exRespFifteen exNotes,
        0 ≤ r.relevance_score ∧ r.relevance_score ≤ 1 := by
  intro hall
  have hp : parse_search_response exRespFifteen exNotes = [exResFifteen] := rfl
  have hmem : exResFifteen ∈ parse_search_response exRespFifteen exNotes := by
    rw [hp]; exact List.mem_singleton.mpr rfl
  have hb := (hall exResFifteen hmem).2
  have : ¬ ((15 : ℚ) / 10 ≤ 1) := by norm_num
  exact this (by simpa [exResFifteen] using hb)

/-- C5 (amended): every parsed result's relevance score lies in [0,1]
    provided every `RELEVANCE: <digits>` value occurring in the reply's
    fragments is at most 10 (as the prompt instructs); the default score
    1/2 always qualifies.  The unamended claim fails because the parser
    does not clamp out-of-range ratings. -/
theorem relevance_in_unit_interval_of_conformant (response_text : List Char)
    (clinical_notes : List ClinicalNote)
    (hconf : ∀ sec ∈ (pySplit "SNIPPET:".toList response_text).drop 1,
      ∀ n, findTagNum "RELEVANCE:".toList [] sec = some n → n ≤ 10) :
    ∀ r ∈ parse_search_response response_text clinical_notes,
      0 ≤ r.relevance_score ∧ r.relevance_score ≤ 1 := by
  intro r hr
  rw [parse_search_response, List.mem_insertionSort] at hr
  rw [extract_results, List.mem_filterMap] at hr
  obtain ⟨sec, hsec, hparse⟩ := hr
  have hscore := parse_section_relevance clinical_notes sec r hparse
  rcases hn : findTagNum "RELEVANCE:".toList [] sec with _ | n <;>
    rw [hn] at hscore
  · rw [hscore]; norm_num
  · have hle : n ≤ 10 := hconf sec hsec n hn
    rw [hscore]
    constructor
    · positivity
    · rw [div_le_one (by norm_num : (0:ℚ) < 10)]
      exact_mod_cast hle

/-- C5 amended-claim witness: a conformant reply (`RELEVANCE: 9`) has all
    scores inside [0,1]. -/
theorem relevance_in_unit_interval_of_conformant_witness :
    (∀ sec ∈ (pySplit "SNIPPET:".toList exRespOne).drop 1,
      ∀ n, findTagNum "RELEVANCE:".toList [] sec = some n → n ≤ 10) ∧
    ∀ r ∈ parse_search_response exRespOne exNotes,
      0 ≤ r.relevance_score ∧ r.relevance_score ≤ 1 :=
  ⟨by decide,
    relevance_in_unit_interval_of_conformant exRespOne exNotes (by decide)⟩

/-- C6 counterexample: the claim "every parsed result's snippet is a
    nonempty substring of its source note's content" is false at a concrete
    input — the parser never checks the quoted text against the note, so a
    fabricated snippet `"xyz"` is accepted against a note whose content is
    `"resident fell twice today"`. -/
theorem snippet_not_always_substring :
    ¬ ∀ r ∈ parse_search_response exRespFabricated exNotes,
        r.snippet ≠ [] ∧
          ∃ pre post, r.source_note.content = pre ++ r.snippet ++ post := by
  intro hall
  have hp : parse_search_response exRespFabricated exNotes = [exResFabricated] :=
    rfl
  have hmem : exResFabricated ∈ parse_search_response exRespFabricated exNotes := by
    rw [hp]; exact List.mem_singleton.mpr rfl
  have hsub := (hall exResFabricated hmem).2
  have hcontains : containsSub exResFabricated.snippet
      exResFabricated.source_note.content = true :=
    (containsSub_iff exResFabricated.snippet exResFabricated.source_note.content).mpr hsub
  exact absurd hcontains (by decide)

/-- C6 (amended): every parsed result has a nonempty snippet (the body of
    the first double-quoted substring of its fragment); the parser does not
    verify that the snippet occurs in the source note's content, so the
    substring part of the original claim holds only for conformant
    generator replies. -/
theorem snippet_nonempty (response_text : List Char)
    (clinical_notes : List ClinicalNote) :
    ∀ r ∈ parse_search_response response_text clinical_notes,
      r.snippet ≠ [] := by
  intro r hr
  rw [parse_search_response, List.mem_insertionSort] at hr
  rw [extract_results, List.mem_filterMap] at hr
  obtain ⟨sec, hsec, hparse⟩ := hr
  exact findQuoted_ne_nil sec r.snippet
    (parse_section_snippet clinical_notes sec r hparse)

/-- C6 amended-claim witness: the result parsed from a concrete conformant
    reply has a nonempty snippet. -/
theorem snippet_nonempty_witness :
    exRes ∈ parse_search_response exRespOne exNotes ∧ exRes.snippet ≠ [] := by
  have hp : parse_search_response exRespOne exNotes = [exRes] := rfl
  have hmem : exRes ∈ parse_search_response exRespOne exNotes := by
    rw [hp]; exact List.mem_singleton.mpr rfl
  exact ⟨hmem, snippet_nonempty exRespOne exNotes exRes hmem⟩

/-- C7: when the note store returns no notes for the resident and lookback
    date, `execute` returns a `SearchResults` with the given query, no
    resident, an empty result list and the fixed "no notes" summary — and
    the outcome does not depend on the AI processor at all (neither its
    `process_query` nor its `generate_summary` capability is invoked). -/
theorem execute_empty_notes
    (note_repository : List Char → Int → List ClinicalNote)
    (pq : List Char → List ClinicalNote → List QueryResult)
    (gs : List Char → List QueryResult → List Char)
    (lookback_days now : Int) (resident_id query : List Char)
    (h : note_repository resident_id (now - lookback_days) = []) :
    execute note_repository pq gs lookback_days now resident_id query =
      ⟨query, none, [],
        "No clinical notes found for the specified time period.".toList⟩ ∧
      ∀ pq' gs',
        execute note_repository pq gs lookback_days now resident_id query =
          execute note_repository pq' gs' lookback_days now resident_id query := by
  have h1 : ∀ (pq₀ : List Char → List ClinicalNote → List QueryResult)
      (gs₀ : List Char → List QueryResult → List Char),
      execute note_repository pq₀ gs₀ lookback_days now resident_id query =
        ⟨query, none, [],
          "No clinical notes found for the specified time period.".toList⟩ := by
    intro pq₀ gs₀
    simp only [execute, h]
    rfl
  exact ⟨h1 pq gs, fun pq' gs' => (h1 pq gs).trans (h1 pq' gs').symm⟩

/-- C7 witness: an empty note store short-circuits `execute` for resident
    RES999 and query "find falls". -/
theorem execute_empty_notes_witness :
    exRepoEmpty "RES999".toList ((0 : Int) - 14) = [] ∧
      (execute exRepoEmpty exProcNone exSummEmpty 14 0 "RES999".toList
          "find falls".toList =
        ⟨"find falls".toList, none, [],
          "No clinical notes found for the specified time period.".toList⟩ ∧
      ∀ pq' gs',
        execute exRepoEmpty exProcNone exSummEmpty 14 0 "RES999".toList
            "find falls".toList =
          execute exRepoEmpty pq' gs' 14 0 "RES999".toList
            "find falls".toList) :=
  ⟨rfl, execute_empty_notes exRepoEmpty exProcNone exSummEmpty 14 0
    "RES999".toList "find falls".toList rfl⟩

/-- C8: `generate_summary` returns the fixed "no evidence" message exactly
    when `results` is empty; otherwise it scans the lowercased query
    against the fixed 9-entry keyword table in table order, announcing the
    phrase of the first matching entry, or the generic message when no
    keyword occurs in the query; the reported count is the length of
    `results`. -/
theorem generate_summary_spec (query : List Char) (results : List QueryResult) :
    (generate_summary query results =
        "No relevant clinical evidence found for your query.".toList ↔
      results = []) ∧
    (results ≠ [] →
      ∀ kv, evidence_mapping.find?
          (fun kv => containsSub kv.1 (lowerStr query)) = some kv →
        generate_summary query results =
          "I found ".toList ++ natToChars results.length ++
            " notes that may indicate ".toList ++ kv.2 ++ ":".toList) ∧
    (results ≠ [] →
      evidence_mapping.find?
          (fun kv => containsSub kv.1 (lowerStr query)) = none →
        generate_summary query results =
          "I found ".toList ++ natToChars results.length ++
            " relevant notes for your query:".toList) ∧
    evidence_mapping.length = 9 := by
  have hne_head : results ≠ [] →
      (generate_summary query results).head? = some 'I' := by
    intro hne
    unfold generate_summary
    rw [if_neg (by simpa [List.isEmpty_iff] using hne)]
    cases h : extract_evidence_type query <;> simp only [h] <;> rfl
  refine ⟨⟨?_, ?_⟩, ?_, ?_, rfl⟩
  · intro heq
    by_contra hne
    have h1 := hne_head hne
    rw [heq] at h1
    exact absurd h1 (by decide)
  · intro h
    subst h
    rfl
  · intro hne kv hkv
    unfold generate_summary
    rw [if_neg (by simpa [List.isEmpty_iff] using hne)]
    have he : extract_evidence_type query = some kv.2 := by
      simp [extract_evidence_type, hkv]
    simp only [he]
  · intro hne hnone
    unfold generate_summary
    rw [if_neg (by simpa [List.isEmpty_iff] using hne)]
    have he : extract_evidence_type query = none := by
      simp [extract_evidence_type, hnone]
    simp only [he]

/-- C8 witness: for the query "fall and depression" the table entry
    "depression" wins although "fall" occurs first in the query text
    (table order, not query order), and the summary announces one note. -/
theorem generate_summary_spec_witness :
    ([exRes] : List QueryResult) ≠ [] ∧
    evidence_mapping.find?
        (fun kv => containsSub kv.1 (lowerStr "fall and depression".toList)) =
      some ("depression".toList, "symptoms of depression".toList) ∧
    generate_summary "fall and depression".toList [exRes] =
      "I found ".toList ++ natToChars ([exRes] : List QueryResult).length ++
        " notes that may indicate ".toList ++
        "symptoms of depression".toList ++ ":".toList :=
  ⟨by simp, by decide,
    (generate_summary_spec "fall and depression".toList [exRes]).2.1
      (by simp)
      ("depression".toList, "symptoms of depression".toList)
      (by decide)⟩

/-- C9: `filter_by_note_type` returns a new aggregate whose results are
    exactly the original results with the given note type, in their
    original relative order; the query and resident are unchanged and the
    replacement summary states the filtered count. (In this pure embedding
    the original aggregate is immutable by construction: the operation
    builds a new value and cannot alter `s`.) -/
theorem filter_by_note_type_spec (s : SearchResults) (t : NoteType) :
    (s.filter_by_note_type t).results =
        s.results.filter (fun r => decide (r.source_note.note_type = t)) ∧
      List.Sublist (s.filter_by_note_type t).results s.results ∧
      (s.filter_by_note_type t).query = s.query ∧
      (s.filter_by_note_type t).resident = s.resident ∧
      (s.filter_by_note_type t).summary =
        "Filtered results for ".toList ++ t.value ++ ": ".toList ++
          natToChars (s.filter_by_note_type t).results.length ++
          " notes found".toList :=
  ⟨rfl, List.filter_sublist s.results, rfl, rfl, rfl⟩

/-- C10: response parsing imposes no cap on the number of results — a reply
    with six well-formed fragments parses to six results, although the
    generated prompt only *instructs* the model to return at most five. -/
theorem no_result_cap :
    5 < (parse_search_response exRespSix exNotes).length := by
  have h : (parse_search_response exRespSix exNotes).length = 6 := by
    rw [parse_search_response, List.length_insertionSort]
    rfl
  rw [h]
  norm_num

end TalkToChart
